import Mathlib

/-!
Shallow embedding of `src/nslookup.c`: the DNS response parser `dns_parse`
(derived from musl libc), the reverse-name deriver `reverse_lookup`, the
direct UDP exchange `res_ssend` (as a syscall-trace model), and the
query/response loop of `main`.

The response buffer is modelled as an unbounded byte memory `r : Nat → Nat`
(every access is reduced mod 256, as the C buffer holds `unsigned char`),
together with the declared length `rlen`.  The parser model is instrumented:
it returns, besides the success flag, the list of byte offsets it read and
the list of callback invocations it made, so that bounds properties are
statable about it.
-/

/-- Read one byte of the message: C accesses are on `unsigned char`. -/
def rd (r : Nat → Nat) (i : Nat) : Nat := r i % 256

/-- The name-skipping scan `while (p-r < rlen && *p-1U < 127) p++;` of
`dns_parse`.  Returns the final offset and the offsets read.  The fuel is
always called with at least `rlen`, which bounds the number of iterations,
since every iteration requires `o < rlen`. -/
def scanName (r : Nat → Nat) (rlen : Nat) : Nat → Nat → Nat × List Nat
  | o, 0 => (o, [])
  | o, fuel+1 =>
    if o < rlen then
      let b := rd r o
      if 1 ≤ b ∧ b ≤ 127 then
        let t := scanName r rlen (o+1) fuel
        (t.1, o :: t.2)
      else (o, [o])
    else (o, [])

/-- The validity check `*p>193 || (*p==193 && p[1]>254) || p>r+rlen-6` of
`dns_parse`, with C short-circuit evaluation: `p[1]` is read only when
`*p == 193`.  Returns `(check failed, offsets read)`.  Note that `*p` itself
is dereferenced unconditionally, before the `p>r+rlen-6` bound test. -/
def nameCheck (r : Nat → Nat) (rlen o : Nat) : Bool × List Nat :=
  let b := rd r o
  if b > 193 then (true, [o])
  else if b = 193 then
    (decide (rd r (o+1) > 254) || decide (o + 6 > rlen), [o, o+1])
  else (decide (o + 6 > rlen), [o])

/-- One iteration of the question-section loop of `dns_parse`:
scan the name, run the check, then `p += 5 + !!*p`. -/
def qStep (r : Nat → Nat) (rlen o : Nat) : Option Nat × List Nat :=
  let s := scanName r rlen o rlen
  let c := nameCheck r rlen s.1
  if c.1 then (none, s.2 ++ c.2)
  else (some (s.1 + 5 + (if rd r s.1 ≠ 0 then 1 else 0)), s.2 ++ c.2)

/-- One iteration of the answer-section loop of `dns_parse`: scan the name,
run the check, `p += 1 + !!*p`, read the record length from `p[8]`/`p[9]`,
test `p+len > r+rlen`, and invoke the callback with
`(rr = p[1], data offset = p+10, len, name anchor = record start)`.
Returns the next offset (`none` on failure), the offsets read, and the
callback invocations made. -/
def aStep (r : Nat → Nat) (rlen : Nat) (cb : Nat → Nat → Nat → Nat → Bool)
    (o : Nat) : Option Nat × List Nat × List (Nat × Nat × Nat × Nat) :=
  let s := scanName r rlen o rlen
  let c := nameCheck r rlen s.1
  if c.1 then (none, s.2 ++ c.2, [])
  else
    let o2 := s.1 + 1 + (if rd r s.1 ≠ 0 then 1 else 0)
    let len := rd r (o2+8) * 256 + rd r (o2+9)
    if o2 + len > rlen then (none, s.2 ++ c.2 ++ [o2+8, o2+9], [])
    else
      let rr := rd r (o2+1)
      if cb rr (o2+10) len o then
        (some (o2 + 10 + len), s.2 ++ c.2 ++ [o2+8, o2+9, o2+1],
         [(rr, o2+10, len, o)])
      else (none, s.2 ++ c.2 ++ [o2+8, o2+9, o2+1], [(rr, o2+10, len, o)])

/-- The `while (qdcount--)` loop of `dns_parse`. -/
def qLoop (r : Nat → Nat) (rlen : Nat) : Nat → Nat → Option Nat × List Nat
  | 0, o => (some o, [])
  | n+1, o =>
    let s := qStep r rlen o
    match s.1 with
    | none => (none, s.2)
    | some o2 =>
      let t := qLoop r rlen n o2
      (t.1, s.2 ++ t.2)

/-- The `while (ancount--)` loop of `dns_parse`. -/
def aLoop (r : Nat → Nat) (rlen : Nat) (cb : Nat → Nat → Nat → Nat → Bool) :
    Nat → Nat → Bool × List Nat × List (Nat × Nat × Nat × Nat)
  | 0, _ => (true, [], [])
  | n+1, o =>
    let s := aStep r rlen cb o
    match s.1 with
    | none => (false, s.2.1, s.2.2)
    | some o2 =>
      let t := aLoop r rlen cb n o2
      (t.1, s.2.1 ++ t.2.1, s.2.2 ++ t.2.2)

/-- Result of the instrumented parser: success flag, byte offsets read by
the parser itself (the callback's reads are not included), and the callback
invocations `(record type, resource-data offset, resource-data length,
record-start offset)` in order. -/
structure ParseOut where
  ok : Bool
  reads : List Nat
  calls : List (Nat × Nat × Nat × Nat)
  deriving DecidableEq

/-- The question-section and answer-section walk of `dns_parse`,
starting at offset 12. -/
def walkSections (r : Nat → Nat) (rlen : Nat)
    (cb : Nat → Nat → Nat → Nat → Bool) (qd an : Nat) : ParseOut :=
  let q := qLoop r rlen qd 12
  match q.1 with
  | none => ⟨false, q.2, []⟩
  | some o =>
    let a := aLoop r rlen cb an o
    ⟨a.1, q.2 ++ a.2.1, a.2.2⟩

/-- Model of `dns_parse` (src/nslookup.c lines 141-187): header length
check, response-code check, count sanity check, then the section walk. -/
def dns_parse (r : Nat → Nat) (rlen : Nat)
    (cb : Nat → Nat → Nat → Nat → Bool) : ParseOut :=
  if rlen < 12 then ⟨false, [], []⟩
  else if rd r 3 % 16 ≠ 0 then ⟨false, [3], []⟩
  else
    let qd := rd r 4 * 256 + rd r 5
    let an := rd r 6 * 256 + rd r 7
    if qd + an > 64 then ⟨false, [3, 4, 5, 6, 7], []⟩
    else
      let w := walkSections r rlen cb qd an
      ⟨w.ok, [3, 4, 5, 6, 7] ++ w.reads, w.calls⟩

/-- A callback that always succeeds (a `dns_print` whose output never fails). -/
def cbTrue : Nat → Nat → Nat → Nat → Bool := fun _ _ _ _ => true

/-- A 12-byte response whose header declares `qdcount = 1`, `ancount = 0`:
bytes `00 00 00 00 00 01 00 00 00 00 00 00`. -/
def ex1 : Nat → Nat := fun i => if i = 5 then 1 else 0

/-- A 23-byte response with `qdcount = 0`, `ancount = 1`, a root owner name
(single zero byte at offset 12), and record-data length 10 at offsets 21-22:
bytes `00 00 00 00 00 00 00 01 00 00 00 00 00 00 00 00 00 00 00 00 00 00 0a`. -/
def ex2 : Nat → Nat := fun i => if i = 7 then 1 else if i = 22 then 10 else 0

example : (dns_parse ex1 12 cbTrue).reads = [3, 4, 5, 6, 7, 12] := by decide
example : (dns_parse ex2 23 cbTrue).calls = [(0, 23, 10, 12)] := by decide
example : (dns_parse ex2 23 cbTrue).ok = true := by decide

/-- The `POLL_TIMEOUT` constant of src/nslookup.c (milliseconds). -/
def POLL_TIMEOUT : Nat := 5000

/-- System calls made by `res_ssend`, as trace events. -/
inductive SysEv where
  | socketCall : SysEv
  | bindCall : SysEv
  | sendtoCall : SysEv
  | pollCall : Nat → SysEv
  | recvCall : SysEv
  | closeCall : Nat → SysEv
  deriving DecidableEq

/-- Whether a trace event is a `poll` call. -/
def SysEv.isPoll : SysEv → Bool
  | .pollCall _ => true
  | _ => false

/-- Outcomes the operating system gives to the system calls of one
`res_ssend` invocation: the created descriptor (`none` if `socket` fails),
whether `bind` and `sendto` succeed, and the return values of `poll` and
`recvfrom`. -/
structure NetEnv where
  socketFd : Option Nat
  bindOk : Bool
  sendOk : Bool
  pollRet : Int
  recvRet : Int

/-- Model of `res_ssend` (src/nslookup.c lines 53-104): returns the result
(`-1` on any failure, else the received length) and the trace of system
calls made, following the `goto err_close` cleanup structure of the source. -/
def res_ssend (env : NetEnv) : Int × List SysEv :=
  match env.socketFd with
  | none => (-1, [.socketCall])
  | some fd =>
    if env.bindOk = false then (-1, [.socketCall, .bindCall, .closeCall fd])
    else if env.sendOk = false then
      (-1, [.socketCall, .bindCall, .sendtoCall, .closeCall fd])
    else if env.pollRet ≤ 0 then
      (-1, [.socketCall, .bindCall, .sendtoCall, .pollCall POLL_TIMEOUT,
            .closeCall fd])
    else if env.recvRet < 0 then
      (-1, [.socketCall, .bindCall, .sendtoCall, .pollCall POLL_TIMEOUT,
            .recvCall, .closeCall fd])
    else
      (env.recvRet, [.socketCall, .bindCall, .sendtoCall,
                     .pollCall POLL_TIMEOUT, .recvCall, .closeCall fd])

/-- Diagnostics `main` prints to stderr before returning `EXIT_FAILURE`. -/
inductive Diag where
  | usage : Diag
  | build : Diag
  | resolve : Diag
  | transport : Diag
  | mismatch : Diag
  | decode : Diag
  deriving DecidableEq

/-- Environment of `main`'s query loop: the two `res_mkquery` results, the
server-resolution outcome, and per-iteration exchange results, query bytes,
and response bytes.  The exchange result abstracts over `res_send` and
`res_ssend` (a negative value is a transport failure). -/
structure MainEnv where
  qlen : Int
  qlen2 : Int
  serverOk : Bool
  exchRes : Nat → Int
  query : Nat → Nat → Nat
  resp : Nat → Nat → Nat
  cb : Nat → Nat → Nat → Nat → Bool

/-- The `memcmp(current_query, response, 2)` transaction-id test of `main`:
true when the first two bytes agree. -/
def idMatch (env : MainEnv) (i : Nat) : Bool :=
  decide (rd (env.query i) 0 = rd (env.resp i) 0) &&
    decide (rd (env.query i) 1 = rd (env.resp i) 1)

/-- Result of one iteration of `main`'s query loop: failure with its
diagnostic plus whether the query had been sent and whether `dns_parse` had
been invoked on the response, or success. -/
inductive IterRes where
  | fail : Diag → Bool → Bool → IterRes
  | ok : IterRes
  deriving DecidableEq

/-- One iteration of `main`'s loop (src/nslookup.c lines 268-334) for query
index `i` with current build result `ql`: build check, server resolution
(first iteration only), exchange, transaction-id check, then decode. -/
def runIter (env : MainEnv) (i : Nat) (ql : Int) : IterRes :=
  if ql < 0 then .fail .build false false
  else if i = 0 ∧ env.serverOk = false then .fail .resolve false false
  else if env.exchRes i < 0 then .fail .transport true false
  else if idMatch env i = false then .fail .mismatch true false
  else if (dns_parse (env.resp i) (env.exchRes i).toNat env.cb).ok then .ok
  else .fail .decode true true

/-- Observable outcome of `main`'s loop: exit status, indices of queries
sent, indices of responses passed to `dns_parse`, and the diagnostic of the
failing step, if any. -/
structure RunOut where
  exit : Nat
  sends : List Nat
  parses : List Nat
  diag : Option Diag
  deriving DecidableEq

/-- The forward-lookup run of `main` (`qcount = 2`): iteration 0 with
`qlen`, then iteration 1 with `qlen2`; any failure returns
`EXIT_FAILURE` immediately. -/
def runForward (env : MainEnv) : RunOut :=
  match runIter env 0 env.qlen with
  | .fail d s p => ⟨1, if s then [0] else [], if p then [0] else [], some d⟩
  | .ok =>
    match runIter env 1 env.qlen2 with
    | .fail d s p =>
      ⟨1, 0 :: (if s then [1] else []), 0 :: (if p then [1] else []), some d⟩
    | .ok => ⟨0, [0, 1], [0, 1], none⟩

/-- Whether the first query of a forward lookup succeeds end to end:
build, server resolution, transport, transaction-id match, and decode. -/
def firstOk (env : MainEnv) : Bool :=
  decide (0 ≤ env.qlen) && env.serverOk && decide (0 ≤ env.exchRes 0) &&
    idMatch env 0 && (dns_parse (env.resp 0) (env.exchRes 0).toNat env.cb).ok

/-- The `MAXREVLEN` constant of src/nslookup.c. -/
def MAXREVLEN : Nat := 73

/-- Result of `reverse_lookup`: either the original input string is
returned (the non-literal or overflow-fallback paths), or the derived
reverse name built in the caller's buffer. -/
inductive RevResult where
  | original : RevResult
  | derived : String → RevResult
  deriving DecidableEq

/-- Whether a `reverse_lookup` result is the derived name. -/
def RevResult.isDerived : RevResult → Bool
  | .derived _ => true
  | .original => false

/-- Classification of the input string by the external `inet_pton` parser
(an out-of-scope collaborator): a valid IPv4 literal with its four octets
in address order, a valid IPv6 literal with its sixteen bytes in network
order (indices 0-15), or neither. -/
inductive AddrClass where
  | v4 : Nat → Nat → Nat → Nat → AddrClass
  | v6 : (Nat → Nat) → AddrClass
  | other : AddrClass

/-- The IPv4 loop of `reverse_lookup`: for each octet, `snprintf` the
decimal octet followed by a dot, failing (`none`, the fallback) when the
write does not fit the remaining capacity (`l >= len`). -/
def v4Loop : List Nat → String → Nat → Option (String × Nat)
  | [], buf, len => some (buf, len)
  | o :: rest, buf, len =>
    if (Nat.repr (o % 256) ++ ".").length ≥ len then none
    else
      v4Loop rest (buf ++ (Nat.repr (o % 256) ++ "."))
        (len - (Nat.repr (o % 256) ++ ".").length)

/-- A one-character string for a hex nibble, as printed by `%x` for a
value below 16. -/
def hexNib (n : Nat) : String := String.mk [Nat.digitChar n]

/-- The `snprintf(p, len, "%x.%x.", *arr & 15, (*arr >> 4) & 15)` payload
for one byte: low nibble, dot, high nibble, dot. -/
def nibStr (v : Nat) : String :=
  hexNib (v % 16) ++ "." ++ hexNib (v / 16 % 16) ++ "."

/-- The IPv6 loop of `reverse_lookup`: iterates bytes from index 15 down to
0 (the counter is the number of bytes still to process), failing (`none`)
when a write does not fit the remaining capacity. -/
def v6Loop (b : Nat → Nat) : Nat → String → Nat → Option (String × Nat)
  | 0, buf, len => some (buf, len)
  | i+1, buf, len =>
    if (nibStr (rd b i)).length ≥ len then none
    else v6Loop b i (buf ++ nibStr (rd b i)) (len - (nibStr (rd b i)).length)

/-- Model of `reverse_lookup` (src/nslookup.c lines 189-237) over the
`inet_pton` classification of the input and the output capacity `len`:
IPv4 emits the octets in reverse order then `in-addr.arpa` (needing
`len > 12` for the suffix), IPv6 emits the nibbles of the bytes in reverse
order then `ip6.arpa` (needing `len > 8`), any failed write or non-literal
input returns the original string. -/
def reverse_lookup (a : AddrClass) (len : Nat) : RevResult :=
  match a with
  | .v4 o0 o1 o2 o3 =>
    match v4Loop [o3, o2, o1, o0] "" len with
    | none => .original
    | some (buf, len2) =>
      if len2 ≤ 12 then .original else .derived (buf ++ "in-addr.arpa")
  | .v6 b =>
    match v6Loop b 16 "" len with
    | none => .original
    | some (buf, len2) =>
      if len2 ≤ 8 then .original else .derived (buf ++ "ip6.arpa")
  | .other => .original

/-- The reverse name the spec prescribes for an IPv4 literal `o0.o1.o2.o3`:
octets in reverse order, each followed by a dot, then `in-addr.arpa`. -/
def revNameV4 (o0 o1 o2 o3 : Nat) : String :=
  Nat.repr (o3 % 256) ++ "." ++ Nat.repr (o2 % 256) ++ "." ++
    Nat.repr (o1 % 256) ++ "." ++ Nat.repr (o0 % 256) ++ "." ++ "in-addr.arpa"

/-- Nibble-and-dot pairs of bytes `i-1, i-2, ..., 0` of an IPv6 address,
highest index first, low nibble before high nibble within each byte. -/
def hexChunk (b : Nat → Nat) : Nat → String
  | 0 => ""
  | i+1 => nibStr (rd b i) ++ hexChunk b i

/-- The reverse name the spec prescribes for an IPv6 literal: the 32
nibble-and-dot pairs of the bytes in reverse order, then `ip6.arpa`. -/
def revNameV6 (b : Nat → Nat) : String := hexChunk b 16 ++ "ip6.arpa"

/-- Length of the `%u.` write for one IPv4 octet. -/
def wlen (o : Nat) : Nat := (Nat.repr (o % 256)).length + 1

/-- Total length of the `%u.` writes for a list of octets. -/
def sumw : List Nat → Nat
  | [] => 0
  | o :: rest => wlen o + sumw rest

/-- Concatenation of the `%u.` writes for a list of octets. -/
def catw : List Nat → String
  | [] => ""
  | o :: rest => (Nat.repr (o % 256) ++ ".") ++ catw rest

example : reverse_lookup (.v4 192 0 2 1) 73 =
    .derived "1.2.0.192.in-addr.arpa" := by decide
example : revNameV4 192 0 2 1 = "1.2.0.192.in-addr.arpa" := by decide
example : reverse_lookup (.v6 fun _ => 0) 73 =
    .derived "0.0.0.0.0.0.0.0.0.0.0.0.0.0.0.0.0.0.0.0.0.0.0.0.0.0.0.0.0.0.0.0.ip6.arpa" := by
  decide
example : (revNameV6 fun _ => 0).length = 72 := by decide
example : reverse_lookup (.v6 fun _ => 0) 72 = .original := by decide

/-- Claim C1: refuted by the code.  `dns_parse` dereferences `*p` in the
check `*p>193 || ...` before the `p>r+rlen-6` bound test, so on the
12-byte message `ex1` (which declares one question) it reads the byte at
offset 12, which is not strictly below the declared length `rlen = 12`. -/
theorem dns_parse_reads_at_rlen :
    12 ∈ (dns_parse ex1 12 cbTrue).reads ∧
      (dns_parse ex1 12 cbTrue).reads = [3, 4, 5, 6, 7, 12] := by decide

/-- Claim C2: refuted by the code.  `dns_parse` checks `p+len > r+rlen`
but hands `p+10` to the callback as the resource data, so on the 23-byte
message `ex2` the callback is invoked with resource data at offset 23 and
length 10: the region ends at offset 33, which exceeds the declared
message length 23, while the parse even reports success. -/
theorem dns_parse_rdata_past_end :
    (dns_parse ex2 23 cbTrue).calls = [(0, 23, 10, 12)] ∧
      (dns_parse ex2 23 cbTrue).ok = true ∧ 23 < 23 + 10 := by decide

/-- Claim C3: a response shorter than 12 bytes, or one whose byte at
offset 3 has a non-zero low nibble (the response code), is rejected by
`dns_parse` before any question or answer entry is consumed: the result is
failure, no callback invocation is made, and no byte beyond offset 3 is
read. -/
theorem dns_parse_header_reject (r : Nat → Nat) (rlen : Nat)
    (cb : Nat → Nat → Nat → Nat → Bool)
    (h : rlen < 12 ∨ rd r 3 % 16 ≠ 0) :
    (dns_parse r rlen cb).ok = false ∧ (dns_parse r rlen cb).calls = [] ∧
      ∀ i ∈ (dns_parse r rlen cb).reads, i ≤ 3 := by
  by_cases h12 : rlen < 12
  · simp [dns_parse, h12]
  · rcases h with h | h3
    · exact absurd h h12
    · simp [dns_parse, h12, h3]

/-- Witness for `dns_parse_header_reject` at a concrete rejected input. -/
theorem dns_parse_header_reject_witness :
    (dns_parse (fun _ => 1) 12 cbTrue).ok = false ∧
      (dns_parse (fun _ => 1) 12 cbTrue).calls = [] := by
  have h := dns_parse_header_reject (fun _ => 1) 12 cbTrue (Or.inr (by decide))
  exact ⟨h.1, h.2.1⟩

/-- Claim C7: with the length and response-code checks passed, `dns_parse`
rejects any message whose question count plus answer count (big-endian
from header bytes 4-5 and 6-7) exceeds 64, without walking any section or
invoking the callback; when the sum is at most 64 the check is passed and
the parse proceeds to the section walk. -/
theorem dns_parse_count_check (r : Nat → Nat) (rlen : Nat)
    (cb : Nat → Nat → Nat → Nat → Bool)
    (h12 : 12 ≤ rlen) (hrc : rd r 3 % 16 = 0) :
    (64 < rd r 4 * 256 + rd r 5 + (rd r 6 * 256 + rd r 7) →
      dns_parse r rlen cb = ⟨false, [3, 4, 5, 6, 7], []⟩) ∧
    (rd r 4 * 256 + rd r 5 + (rd r 6 * 256 + rd r 7) ≤ 64 →
      dns_parse r rlen cb =
        ⟨(walkSections r rlen cb (rd r 4 * 256 + rd r 5)
            (rd r 6 * 256 + rd r 7)).ok,
         [3, 4, 5, 6, 7] ++ (walkSections r rlen cb (rd r 4 * 256 + rd r 5)
            (rd r 6 * 256 + rd r 7)).reads,
         (walkSections r rlen cb (rd r 4 * 256 + rd r 5)
            (rd r 6 * 256 + rd r 7)).calls⟩) := by
  have h12' : ¬ rlen < 12 := by omega
  constructor
  · intro h
    simp [dns_parse, h12', hrc, h]
  · intro h
    have h' : ¬ (64 < rd r 4 * 256 + rd r 5 + (rd r 6 * 256 + rd r 7)) := by
      omega
    simp [dns_parse, h12', hrc, h']

/-- Witness for `dns_parse_count_check` at a message whose counts sum to
65: the header bytes give `qdcount = 65`, `ancount = 0`, and the parse is
rejected at the sanity check. -/
theorem dns_parse_count_check_witness :
    dns_parse (fun i => if i = 5 then 65 else 0) 12 cbTrue =
      ⟨false, [3, 4, 5, 6, 7], []⟩ :=
  (dns_parse_count_check (fun i => if i = 5 then 65 else 0) 12 cbTrue
    (by decide) (by decide)).1 (by decide)

theorem runIter0_ok_iff (env : MainEnv) :
    runIter env 0 env.qlen = .ok ↔ firstOk env = true := by
  unfold runIter firstOk
  split_ifs with h1 h2 h3 h4 h5 <;> simp_all

/-- Claim C4: a response to the first query whose first two bytes differ
from the query's is rejected by `main` as a mismatch: the mismatch
diagnostic (distinct from the transport diagnostic) is reported, the
response is never passed to `dns_parse`, the second query is not sent, and
the exit status is non-zero, regardless of the rest of the response. -/
theorem main_mismatch_rejected (env : MainEnv)
    (hq : 0 ≤ env.qlen) (hs : env.serverOk = true) (hr : 0 ≤ env.exchRes 0)
    (hm : rd (env.query 0) 0 ≠ rd (env.resp 0) 0 ∨
      rd (env.query 0) 1 ≠ rd (env.resp 0) 1) :
    runForward env = ⟨1, [0], [], some .mismatch⟩ ∧
      Diag.mismatch ≠ Diag.transport := by
  have hid : idMatch env 0 = false := by
    simp only [idMatch, Bool.and_eq_false_iff, decide_eq_false_iff_not]
    tauto
  have h1 : ¬ env.qlen < 0 := by omega
  have h3 : ¬ env.exchRes 0 < 0 := by omega
  have hit : runIter env 0 env.qlen = .fail .mismatch true false := by
    simp [runIter, h1, hs, h3, hid]
  exact ⟨by simp [runForward, hit], by decide⟩

/-- Witness for `main_mismatch_rejected`: the query bytes are all zero and
the response's first byte is 1, so the exchange succeeds but the ids
differ. -/
theorem main_mismatch_rejected_witness :
    runForward ⟨0, 0, true, fun _ => 12, fun _ _ => 0,
        fun _ i => if i = 0 then 1 else 0, cbTrue⟩ =
      ⟨1, [0], [], some .mismatch⟩ :=
  (main_mismatch_rejected _ (by decide) rfl (by decide)
    (Or.inl (by decide))).1

/-- Claim C10: in a forward lookup, the second query is sent only when the
first query succeeded end to end (build, server resolution, transport,
transaction-id match, and decode); whenever any of those stages fails, the
program exits with status 1 and the second query is never sent. -/
theorem main_second_query_gating (env : MainEnv) :
    (1 ∈ (runForward env).sends → firstOk env = true) ∧
    (firstOk env = false →
      (runForward env).exit = 1 ∧ 1 ∉ (runForward env).sends) := by
  have hiff := runIter0_ok_iff env
  cases hit : runIter env 0 env.qlen with
  | fail d s p =>
    constructor
    · intro hmem
      exfalso
      simp only [runForward, hit] at hmem
      cases s <;> simp at hmem
    · intro _
      simp only [runForward, hit]
      cases s <;> simp
  | ok =>
    refine ⟨fun _ => hiff.mp hit, fun hf => absurd (hiff.mp hit) ?_⟩
    simp [hf]

/-- Witness for `main_second_query_gating`: server resolution fails, so
the run exits with status 1 and never sends the second query. -/
theorem main_second_query_gating_witness :
    (runForward ⟨0, 0, false, fun _ => 0, fun _ _ => 0, fun _ _ => 0,
        cbTrue⟩).exit = 1 ∧
      1 ∉ (runForward ⟨0, 0, false, fun _ => 0, fun _ _ => 0, fun _ _ => 0,
        cbTrue⟩).sends :=
  (main_second_query_gating _).2 (by decide)

/-- Claim C8: every `poll` call in a `res_ssend` trace carries the
5000-millisecond bound, at most one `poll` call is ever made (no retry,
no second wait), a non-positive `poll` result yields the failure result
with no `recvfrom` call, and every created socket is closed on every exit
path. -/
theorem res_ssend_bounded_wait (env : NetEnv) :
    (∀ t, SysEv.pollCall t ∈ (res_ssend env).2 → t = POLL_TIMEOUT) ∧
    (res_ssend env).2.countP (fun e => e.isPoll) ≤ 1 ∧
    (env.bindOk = true → env.sendOk = true → env.pollRet ≤ 0 →
      (res_ssend env).1 = -1 ∧ SysEv.recvCall ∉ (res_ssend env).2) ∧
    (∀ fd, env.socketFd = some fd → SysEv.closeCall fd ∈ (res_ssend env).2) := by
  obtain ⟨sfd, bo, so, pr, rr⟩ := env
  cases sfd with
  | none => simp [res_ssend, SysEv.isPoll]
  | some fd =>
    simp only [res_ssend]
    split_ifs <;>
      simp_all [SysEv.isPoll, List.countP_cons, List.countP_nil]

/-- Witness for `res_ssend_bounded_wait`: socket 3 is created, `bind` and
`sendto` succeed, and `poll` returns 0 (timeout): the call fails without
receiving. -/
theorem res_ssend_bounded_wait_witness :
    (res_ssend ⟨some 3, true, true, 0, 0⟩).1 = -1 ∧
      SysEv.recvCall ∉ (res_ssend ⟨some 3, true, true, 0, 0⟩).2 :=
  (res_ssend_bounded_wait ⟨some 3, true, true, 0, 0⟩).2.2.1 rfl rfl (by decide)

set_option maxRecDepth 4000 in
theorem repr_length_le_three : ∀ n, n < 256 → (Nat.repr n).length ≤ 3 := by
  decide

theorem wlen_eq (o : Nat) : (Nat.repr (o % 256) ++ ".").length = wlen o := by
  have hdot : ("." : String).length = 1 := rfl
  simp [wlen, String.length_append, hdot]

theorem wlen_le_four (o : Nat) : wlen o ≤ 4 := by
  have h := repr_length_le_three (o % 256) (Nat.mod_lt _ (by norm_num))
  simp [wlen]
  omega

theorem v4Loop_run : ∀ (os : List Nat) (buf : String) (len : Nat),
    sumw os < len →
    v4Loop os buf len = some (buf ++ catw os, len - sumw os)
  | [], buf, len, _ => by
    simp [v4Loop, catw, sumw, String.append_empty]
  | o :: rest, buf, len, h => by
    have hw := wlen_eq o
    have hsum : sumw (o :: rest) = wlen o + sumw rest := rfl
    have hc : ¬ ((Nat.repr (o % 256) ++ ".").length ≥ len) := by omega
    have ih := v4Loop_run rest (buf ++ (Nat.repr (o % 256) ++ "."))
      (len - (Nat.repr (o % 256) ++ ".").length) (by omega)
    simp only [v4Loop, hc, if_false, ih, catw]
    rw [String.append_assoc]
    congr 2
    omega

theorem v4Loop_fallback : ∀ (os : List Nat) (buf : String) (len : Nat),
    (match v4Loop os buf len with
     | none => True
     | some (_, l) => l ≤ 12) ↔ len ≤ sumw os + 12
  | [], buf, len => by simp [v4Loop, sumw]
  | o :: rest, buf, len => by
    have hw := wlen_eq o
    have hsum : sumw (o :: rest) = wlen o + sumw rest := rfl
    by_cases hc : (Nat.repr (o % 256) ++ ".").length ≥ len
    · simp only [v4Loop, hc, if_true]
      exact iff_of_true trivial (by omega)
    · have ih := v4Loop_fallback rest (buf ++ (Nat.repr (o % 256) ++ "."))
        (len - (Nat.repr (o % 256) ++ ".").length)
      simp only [v4Loop, hc, if_false, ih]
      omega

theorem nibStr_len (v : Nat) : (nibStr v).length = 4 := by
  have hdot : ("." : String).length = 1 := rfl
  simp [nibStr, hexNib, String.length_append, hdot]

theorem hexChunk_len (b : Nat → Nat) : ∀ i, (hexChunk b i).length = 4 * i
  | 0 => rfl
  | i+1 => by
    simp [hexChunk, String.length_append, nibStr_len, hexChunk_len b i]
    omega

theorem v6Loop_run (b : Nat → Nat) : ∀ (i : Nat) (buf : String) (len : Nat),
    4 * i < len →
    v6Loop b i buf len = some (buf ++ hexChunk b i, len - 4 * i)
  | 0, buf, len, _ => by
    simp [v6Loop, hexChunk, String.append_empty]
  | i+1, buf, len, h => by
    have hw := nibStr_len (rd b i)
    have hc : ¬ ((nibStr (rd b i)).length ≥ len) := by omega
    have ih := v6Loop_run b i (buf ++ nibStr (rd b i))
      (len - (nibStr (rd b i)).length) (by omega)
    simp only [v6Loop, hc, if_false, ih, hexChunk]
    rw [String.append_assoc]
    congr 2
    omega

theorem v6Loop_fallback (b : Nat → Nat) : ∀ (i : Nat) (buf : String)
    (len : Nat),
    (match v6Loop b i buf len with
     | none => True
     | some (_, l) => l ≤ 8) ↔ len ≤ 4 * i + 8
  | 0, buf, len => by simp [v6Loop]
  | i+1, buf, len => by
    have hw := nibStr_len (rd b i)
    by_cases hc : (nibStr (rd b i)).length ≥ len
    · simp only [v6Loop, hc, if_true]
      exact iff_of_true trivial (by omega)
    · have ih := v6Loop_fallback b i (buf ++ nibStr (rd b i))
        (len - (nibStr (rd b i)).length)
      simp only [v6Loop, hc, if_false, ih]
      omega

theorem reverse_v4_original_iff (a0 a1 a2 a3 len : Nat) :
    reverse_lookup (.v4 a0 a1 a2 a3) len = .original ↔
      len ≤ sumw [a3, a2, a1, a0] + 12 := by
  rw [← v4Loop_fallback [a3, a2, a1, a0] "" len]
  unfold reverse_lookup
  cases h : v4Loop [a3, a2, a1, a0] "" len with
  | none => simp [h]
  | some p =>
    obtain ⟨buf, l⟩ := p
    by_cases hl : l ≤ 12 <;> simp [h, hl]

theorem reverse_v6_original_iff (b : Nat → Nat) (len : Nat) :
    reverse_lookup (.v6 b) len = .original ↔ len ≤ 72 := by
  have := v6Loop_fallback b 16 "" len
  norm_num at this
  rw [← this]
  unfold reverse_lookup
  cases h : v6Loop b 16 "" len with
  | none => simp [h]
  | some p =>
    obtain ⟨buf, l⟩ := p
    by_cases hl : l ≤ 8 <;> simp [h, hl]

theorem revNameV4_len (a0 a1 a2 a3 : Nat) :
    (revNameV4 a0 a1 a2 a3).length = sumw [a3, a2, a1, a0] + 12 := by
  have hdot : ("." : String).length = 1 := rfl
  have hsuf : ("in-addr.arpa" : String).length = 12 := rfl
  simp [revNameV4, String.length_append, sumw, wlen, hdot, hsuf]
  omega

theorem revNameV6_len (b : Nat → Nat) : (revNameV6 b).length = 72 := by
  have hsuf : ("ip6.arpa" : String).length = 8 := rfl
  simp [revNameV6, String.length_append, hexChunk_len, hsuf]

theorem sumw_quad_le (a0 a1 a2 a3 : Nat) : sumw [a3, a2, a1, a0] ≤ 16 := by
  have h0 := wlen_le_four a0
  have h1 := wlen_le_four a1
  have h2 := wlen_le_four a2
  have h3 := wlen_le_four a3
  simp [sumw]
  omega

theorem isDerived_of_ne_original (x : RevResult) (h : x ≠ .original) :
    x.isDerived = true := by
  cases x <;> simp_all [RevResult.isDerived]

/-- Claim C5: with at least `MAXREVLEN` bytes of capacity (the capacity
`main` provides and `reverse_lookup` asserts), an IPv4 literal yields its
four octets in reverse order, each followed by a dot, then `in-addr.arpa`;
an IPv6 literal yields the 32 nibbles (bytes in reverse order, low nibble
first within each byte), each followed by a dot, then `ip6.arpa`. -/
theorem reverse_lookup_derived_format (o0 o1 o2 o3 : Nat) (b : Nat → Nat)
    (len : Nat) (h : MAXREVLEN ≤ len) :
    reverse_lookup (.v4 o0 o1 o2 o3) len = .derived (revNameV4 o0 o1 o2 o3) ∧
      reverse_lookup (.v6 b) len = .derived (revNameV6 b) := by
  have h73 : (73 : Nat) ≤ len := h
  constructor
  · have hs := sumw_quad_le o0 o1 o2 o3
    have hrun := v4Loop_run [o3, o2, o1, o0] "" len (by omega)
    have hl : ¬ (len - sumw [o3, o2, o1, o0] ≤ 12) := by omega
    simp only [reverse_lookup, hrun, hl, if_false]
    simp [catw, revNameV4, String.append_assoc, String.append_empty,
      String.empty_append]
  · have hrun := v6Loop_run b 16 "" len (by omega)
    have hl : ¬ (len - 4 * 16 ≤ 8) := by omega
    simp only [reverse_lookup, hrun, hl, if_false]
    simp [revNameV6, String.empty_append]

/-- Witness for `reverse_lookup_derived_format`: the literal `192.0.2.1`
with a 73-byte buffer yields `1.2.0.192.in-addr.arpa`. -/
theorem reverse_lookup_derived_format_witness :
    reverse_lookup (.v4 192 0 2 1) 73 =
      .derived "1.2.0.192.in-addr.arpa" := by
  have h := (reverse_lookup_derived_format 192 0 2 1 (fun _ => 0) 73
    (by decide)).1
  rw [h]
  decide

/-- Claim C6: `reverse_lookup` returns the original input exactly when the
input is not an address literal, or when the capacity cannot hold the
derived name and its terminator (that is, when some incremental write
would overflow); otherwise it returns the derived name. -/
theorem reverse_lookup_original_iff (a0 a1 a2 a3 : Nat) (b : Nat → Nat)
    (len : Nat) :
    reverse_lookup .other len = .original ∧
    (reverse_lookup (.v4 a0 a1 a2 a3) len = .original ↔
      len < (revNameV4 a0 a1 a2 a3).length + 1) ∧
    (reverse_lookup (.v6 b) len = .original ↔
      len < (revNameV6 b).length + 1) := by
  refine ⟨rfl, ?_, ?_⟩
  · rw [reverse_v4_original_iff, revNameV4_len]
    omega
  · rw [reverse_v6_original_iff, revNameV6_len]
    omega

/-- Claim C9: with a buffer of capacity at least `MAXREVLEN = 73`, the
overflow-fallback branches of `reverse_lookup` are unreachable for every
IPv4 and IPv6 literal: the derived name, never the original string, is
returned. -/
theorem maxrevlen_no_fallback (a0 a1 a2 a3 : Nat) (b : Nat → Nat)
    (len : Nat) (h : MAXREVLEN ≤ len) :
    (reverse_lookup (.v4 a0 a1 a2 a3) len).isDerived = true ∧
      (reverse_lookup (.v6 b) len).isDerived = true := by
  have h73 : (73 : Nat) ≤ len := h
  have hs := sumw_quad_le a0 a1 a2 a3
  constructor
  · refine isDerived_of_ne_original _ fun hx => ?_
    have := (reverse_v4_original_iff a0 a1 a2 a3 len).mp hx
    omega
  · refine isDerived_of_ne_original _ fun hx => ?_
    have := (reverse_v6_original_iff b len).mp hx
    omega

/-- Witness for `maxrevlen_no_fallback` at `10.0.0.1` with capacity
exactly 73. -/
theorem maxrevlen_no_fallback_witness :
    (reverse_lookup (.v4 10 0 0 1) 73).isDerived = true :=
  (maxrevlen_no_fallback 10 0 0 1 (fun _ => 0) 73 (by decide)).1
